import Mathlib

/-!
Verification development for the BrainDrive OpenRouter plugin.

The development shallowly embeds the plugin's core: the model-data
contracts (`src/types/models.ts`), the model cache and normalization
utilities (`src/utils/modelUtils.ts`), the provider service
(`src/services/openRouterService.ts`), and the widget state machine
(`ComponentOpenRouterKeys.tsx`).

Modelling conventions:
- JavaScript strings are Lean `String`s; the code under scrutiny only
  handles ASCII credential and model identifiers, where JS `.length`
  (UTF-16 units) agrees with Lean `String.length` (code points).
- Optional/absent string-valued JS fields are modelled as `""` where the
  source only consumes them through truthiness (`a || b`), and as
  `Option` where the source uses nullish coalescing (`a ?? b`).
- Timestamps are `Nat` epoch milliseconds; the age comparison in the
  cache is performed over `Int`, mirroring JS number subtraction.
- `localStorage` holds a single slot under one fixed key, modelled as
  `Option CachedModelsPayload`; storage-unavailable and JSON-parse
  failures degrade to the `none` slot.  Cache-touching operations are
  written state-passing: they return the value the source returns
  together with the storage slot they leave behind.
- `async` network completions are passed in explicitly: a fetchable
  provider response lives in `FetchEnv`, and widget handlers that await
  a promise take the settled outcome as an argument.
-/

namespace OpenRouterPlugin

/-! ## Data contracts (src/types/models.ts) -/

/-- `ModelAvailabilityStatus` from src/types/models.ts. -/
inductive ModelAvailabilityStatus where
  | available
  | unavailable
  | unknown
deriving DecidableEq, Repr

/-- `ModelPricing` from src/types/models.ts.  Price values may be JS
numbers or strings; no claim inspects them, so they are carried as
strings. -/
structure ModelPricing where
  prompt : Option String := none
  completion : Option String := none
deriving DecidableEq, Repr

/-- Raw pricing object shape read by `normalizePricing`
(src/utils/modelUtils.ts): the source tries the `prompt`/`input`/
`prompt_price` and `completion`/`output`/`completion_price` variants. -/
structure RawPricing where
  prompt : Option String := none
  input : Option String := none
  prompt_price : Option String := none
  completion : Option String := none
  output : Option String := none
  completion_price : Option String := none
deriving DecidableEq, Repr

/-- Fields of the raw `metadata` bag that `normalizeModelRecord` reads.
String fields use `""` for absent (consumed via `||`); the context
length variants use `Option` (consumed via `??`). -/
structure RawMetadata where
  provider : String := ""
  description : String := ""
  owned_by : String := ""
  context_length : Option Int := none
  contextLength : Option Int := none
  max_context_length : Option Int := none
  pricing : Option RawPricing := none
deriving DecidableEq, Repr

/-- Fields of a raw provider model record that `normalizeModelRecord`
reads. -/
structure RawRecord where
  id : String := ""
  model : String := ""
  name : String := ""
  provider : String := ""
  description : String := ""
  owned_by : String := ""
  context_length : Option Int := none
  pricing : Option RawPricing := none
  metadata : Option RawMetadata := none
deriving DecidableEq, Repr

/-- `ModelInfo` from src/types/models.ts, as produced by
`normalizeModelRecord`. -/
structure ModelInfo where
  id : String
  name : String
  provider : String := ""
  description : String := ""
  ownedBy : String := ""
  contextLength : Option Int := none
  pricing : Option ModelPricing := none
  metadata : RawMetadata := {}
deriving DecidableEq, Repr

/-- `ModelTestResult` from src/types/models.ts. -/
structure ModelTestResult where
  id : String
  modelId : String
  modelName : String
  status : ModelAvailabilityStatus
  timestamp : Nat
  message : String
  details : Option String := none
deriving DecidableEq, Repr

/-- `CachedModelsPayload` from src/types/models.ts. -/
structure CachedModelsPayload where
  models : List ModelInfo
  timestamp : Nat
deriving DecidableEq, Repr

/-! ## Model cache (src/utils/modelUtils.ts) -/

/-- `FIVE_MINUTES` from src/utils/modelUtils.ts: the default TTL,
`5 * 60 * 1000` milliseconds. -/
def FIVE_MINUTES : Nat := 5 * 60 * 1000

/-- `getModelCache(ttlMs = FIVE_MINUTES)` from src/utils/modelUtils.ts,
state-passing over the single `localStorage` slot.  Returns the value
the source returns together with the slot it leaves behind.

Source behaviour mirrored branch by branch:
- no serialized entry (or unusable storage): return `null`, slot kept;
- `!payload?.timestamp` — JS falsiness, so a `timestamp` of `0` is
  rejected as malformed: return `null`, slot kept;
- `Date.now() - payload.timestamp > ttlMs`: expired, `removeItem` then
  return `null` (slot emptied);
- otherwise return the payload, slot kept. -/
def getModelCache (now : Nat) (ttlMs : Nat) (store : Option CachedModelsPayload) :
    Option CachedModelsPayload × Option CachedModelsPayload :=
  match store with
  | none => (none, store)
  | some payload =>
    if payload.timestamp = 0 then (none, store)
    else if (now : Int) - (payload.timestamp : Int) > (ttlMs : Int) then (none, none)
    else (some payload, store)

/-- `setModelCache` from src/utils/modelUtils.ts: overwrite the slot
with the models under the current timestamp. -/
def setModelCache (models : List ModelInfo) (now : Nat) : Option CachedModelsPayload :=
  some { models := models, timestamp := now }

/-- `clearModelCache` from src/utils/modelUtils.ts: `removeItem` on the
fixed key, unconditionally. -/
def clearModelCache (_store : Option CachedModelsPayload) : Option CachedModelsPayload :=
  none

/-- JS truthy-or (`a || b`) on strings: `""` is falsy. -/
def jsOr (a b : String) : String :=
  if a = "" then b else a

/-- `normalizePricing` from src/utils/modelUtils.ts.  `none` models the
non-object argument (the source returns `null` there). -/
def normalizePricing (raw : Option RawPricing) : Option ModelPricing :=
  match raw with
  | none => none
  | some r =>
    some { prompt := (r.prompt <|> r.input <|> r.prompt_price),
           completion := (r.completion <|> r.output <|> r.completion_price) }

/-- `normalizeModelRecord` from src/utils/modelUtils.ts.  The `none`
argument models a non-object raw entry (the source returns `null`);
otherwise the record is normalized field by field:
- `metadata`: the record's metadata object, or `{}`;
- `pricing`: `normalizePricing(metadata.pricing || record.pricing)`;
- `id`: `record.id || record.model || record.name`;
- `name`: `record.name || record.id || 'Unknown model'`;
- `provider`: `record.provider || metadata.provider || 'openrouter'`;
- `description`: `record.description || metadata.description`;
- `ownedBy`: `metadata.owned_by || record.owned_by`;
- `contextLength`: `record.context_length ?? metadata.context_length ??
  metadata.contextLength ?? metadata.max_context_length ?? null`. -/
def normalizeModelRecord (record : Option RawRecord) : Option ModelInfo :=
  match record with
  | none => none
  | some r =>
    let metadata : RawMetadata := r.metadata.getD {}
    let pricing := normalizePricing (r.metadata.bind (·.pricing) <|> r.pricing)
    some { id := jsOr r.id (jsOr r.model r.name),
           name := jsOr r.name (jsOr r.id "Unknown model"),
           provider := jsOr r.provider (jsOr metadata.provider "openrouter"),
           description := jsOr r.description metadata.description,
           ownedBy := jsOr metadata.owned_by r.owned_by,
           contextLength :=
             (r.context_length <|> metadata.context_length <|>
              metadata.contextLength <|> metadata.max_context_length),
           pricing := pricing,
           metadata := metadata }

/-! ## Provider service (src/services/openRouterService.ts) -/

/-- A raw entry of the provider's model payload; `none` is a
non-object entry. -/
abbrev RawEntry := Option RawRecord

/-- The response shapes `fetchModels` accepts: a bare array, or an
object carrying `models` and/or `data.models` (either possibly
absent).  A nullish or otherwise shapeless response is
`object none none`. -/
inductive ProviderResponse where
  | array (entries : List RawEntry)
  | object (models : Option (List RawEntry)) (dataModels : Option (List RawEntry))
deriving DecidableEq, Repr

/-- `Array.isArray(response) ? response : response?.models ??
response?.data?.models ?? []` from `fetchModels`. -/
def extractRawModels : ProviderResponse → List RawEntry
  | .array entries => entries
  | .object models dataModels =>
    match models with
    | some entries => entries
    | none => dataModels.getD []

/-- `rawModels.map(normalizeModelRecord).filter(model =>
Boolean(model && model.id))` from `fetchModels`: normalize each entry,
drop `null` results and results without a non-empty identifier. -/
def normalizeModels (entries : List RawEntry) : List ModelInfo :=
  (entries.map normalizeModelRecord).filterMap fun m =>
    match m with
    | some model => if model.id = "" then none else some model
    | none => none

/-- The service's ambient world for one awaited request: whether an API
client with `get` is wired in (`this.api?.get`), the provider response
the endpoint would settle with, and `Date.now()`. -/
structure FetchEnv where
  hasApi : Bool
  response : ProviderResponse
  now : Nat
deriving DecidableEq, Repr

/-- `OpenRouterService.fetchModels` from
src/services/openRouterService.ts, state-passing over the cache slot.
A thrown `Error` is an `Except.error` carrying its message.

- unless `forceRefresh`, try `getModelCache()` first and return the
  cached models on a hit;
- without an API client, throw `'API service unavailable'`;
- extract and normalize the response; an empty result throws
  `'No models returned from OpenRouter'` without writing the cache;
- otherwise `setModelCache(models)` and return the models. -/
def fetchModels (forceRefresh : Bool) (env : FetchEnv)
    (cache : Option CachedModelsPayload) :
    Except String (List ModelInfo) × Option CachedModelsPayload :=
  let read :=
    if forceRefresh then (none, cache)
    else getModelCache env.now FIVE_MINUTES cache
  match read with
  | (some cached, cache') => (.ok cached.models, cache')
  | (none, cache') =>
    if env.hasApi = false then (.error "API service unavailable", cache')
    else
      let models := normalizeModels (extractRawModels env.response)
      if models.isEmpty then (.error "No models returned from OpenRouter", cache')
      else (.ok models, setModelCache models env.now)

/-- `OpenRouterService.testModelAvailability(modelId, models?)` from
src/services/openRouterService.ts, state-passing over the cache slot.

- `models && models.length ? models : await this.fetchModels()`:
  a supplied empty list falls through to the fetch, like an omitted
  argument; a fetch rejection propagates to the caller;
- a single `find` scan accepting `model.id === modelId ||
  model.name === modelId`;
- on a match: an `available` result naming the matched model;
- on no match: `clearModelCache()` and an `unavailable` result. -/
def testModelAvailability (modelId : String) (models : Option (List ModelInfo))
    (env : FetchEnv) (cache : Option CachedModelsPayload) :
    Except String ModelTestResult × Option CachedModelsPayload :=
  let timestamp := env.now
  let resolved :=
    match models with
    | some ms => if ms.isEmpty then fetchModels false env cache else (.ok ms, cache)
    | none => fetchModels false env cache
  match resolved with
  | (.error e, cache') => (.error e, cache')
  | (.ok availableModels, cache') =>
    match availableModels.find? (fun m => m.id == modelId || m.name == modelId) with
    | some m =>
      (.ok { id := m.id ++ "-" ++ toString timestamp,
             modelId := m.id,
             modelName := m.name,
             status := .available,
             timestamp := timestamp,
             message := m.name ++ " is available via OpenRouter." }, cache')
    | none =>
      (.ok { id := modelId ++ "-" ++ toString timestamp,
             modelId := modelId,
             modelName := modelId,
             status := .unavailable,
             timestamp := timestamp,
             message := "Model not listed by OpenRouter for the current account." },
       clearModelCache cache')

/-! ## Widget state machine (ComponentOpenRouterKeys.tsx) -/

/-- Result shape of `validateApiKey`. -/
structure ValidationResult where
  isValid : Bool
  error : Option String := none
deriving DecidableEq, Repr

/-- JS `String.prototype.startsWith`, rendered over the string's
characters (the byte-indexed `String.startsWith` of the standard
library does not reduce in the kernel; on the ASCII data at hand the
two agree). -/
def jsStartsWith (s pre : String) : Bool :=
  pre.data.isPrefixOf s.data

/-- `validateApiKey` from ComponentOpenRouterKeys.tsx.  Both guards are
conditioned on the key being truthy (non-empty); there is no further
check beyond the prefix and the minimum length. -/
def validateApiKey (apiKey : String) : ValidationResult :=
  if apiKey ≠ "" ∧ ¬ jsStartsWith apiKey "sk-or-" then
    { isValid := false, error := some "API key must start with \x22sk-or-\x22" }
  else if apiKey ≠ "" ∧ apiKey.length < 26 then
    { isValid := false, error := some "API key appears to be too short" }
  else
    { isValid := true }

/-- The two tabs of the widget. -/
inductive Tab where
  | apiKey
  | modelTesting
deriving DecidableEq, Repr

/-- `ComponentOpenRouterKeysState` from ComponentOpenRouterKeys.tsx,
restricted to the fields the modelled handlers read or write.  The
purely presentational fields (`isKeyVisible`, `currentTheme`,
`showTooltip`, `tooltipPosition`) and the test-connection flag
(`isTesting`) are omitted: no modelled handler consumes them. -/
structure WidgetState where
  apiKey : String
  savedApiKey : String
  isLoading : Bool
  error : Option String
  success : Option String
  testResult : Option String
  testError : Option String
  isSaving : Bool
  hasUnsavedChanges : Bool
  activeTab : Tab
  modelsLoaded : Bool
  modelsLoading : Bool
  availableModels : List ModelInfo
  modelSearchTerm : String
  selectedModelId : Option String
  modelTestResults : List ModelTestResult
  modelTabError : Option String
  isModelTesting : Bool
deriving DecidableEq, Repr

/-- The constructor's `this.state` initializer. -/
def initialState : WidgetState :=
  { apiKey := ""
    savedApiKey := ""
    isLoading := true
    error := none
    success := none
    testResult := none
    testError := none
    isSaving := false
    hasUnsavedChanges := false
    activeTab := .apiKey
    modelsLoaded := false
    modelsLoading := false
    availableModels := []
    modelSearchTerm := ""
    selectedModelId := none
    modelTestResults := []
    modelTabError := none
    isModelTesting := false }

/-- `handleApiKeyChange` from ComponentOpenRouterKeys.tsx. -/
def handleApiKeyChange (s : WidgetState) (newKey : String) : WidgetState :=
  { s with apiKey := newKey
           error := none
           testResult := none
           testError := none
           hasUnsavedChanges := newKey ≠ s.savedApiKey }

/-- `clearApiKey` from ComponentOpenRouterKeys.tsx. -/
def clearApiKey (s : WidgetState) : WidgetState :=
  { s with apiKey := ""
           testResult := none
           testError := none
           hasUnsavedChanges := s.savedApiKey ≠ "" }

/-- The synchronous prefix of `ensureModelsLoaded`: the in-flight and
missing-credential guards, then the `modelsLoading` setState issued
before awaiting `fetchModels`.  The awaited completion is
`ensureModelsLoadedFinish`. -/
def ensureModelsLoadedStart (s : WidgetState) : WidgetState :=
  if s.modelsLoading then s
  else if s.savedApiKey = "" then
    { s with modelsLoaded := false
             availableModels := []
             modelTabError := some "Save a valid OpenRouter API key to load models." }
  else
    { s with modelsLoading := true, modelTabError := none }

/-- The setState issued when the `fetchModels` promise inside
`ensureModelsLoaded` settles: on fulfilment install the models and keep
the selection only if it still exists (else select the first model); on
rejection surface the message in the tab-scoped error slot. -/
def ensureModelsLoadedFinish (s : WidgetState)
    (outcome : Except String (List ModelInfo)) : WidgetState :=
  match outcome with
  | .ok models =>
    let currentSelectionStillExists :=
      match s.selectedModelId with
      | some mid => models.any (fun m => m.id == mid)
      | none => false
    { s with availableModels := models
             modelsLoaded := true
             modelsLoading := false
             modelTabError := none
             selectedModelId :=
               if currentSelectionStillExists then s.selectedModelId
               else match models with
                    | [] => none
                    | m :: _ => some m.id }
  | .error message =>
    { s with modelsLoading := false
             modelTabError := some message
             modelsLoaded := false }

/-- `handleTabChange` from ComponentOpenRouterKeys.tsx: no-op on the
current tab; refuse switching to model-testing without a saved key,
surfacing the tab-scoped error instead; otherwise switch, and on first
entry to model-testing kick off `ensureModelsLoaded` (its synchronous
prefix). -/
def handleTabChange (s : WidgetState) (tab : Tab) : WidgetState :=
  if tab = s.activeTab then s
  else if tab = .modelTesting ∧ s.savedApiKey = "" then
    { s with modelTabError := some "Save a valid OpenRouter API key to enable model testing." }
  else
    let s' := { s with activeTab := tab }
    if tab = .modelTesting ∧ ¬ s'.modelsLoaded then ensureModelsLoadedStart s'
    else s'

/-- `handleTabsKeyDown` from ComponentOpenRouterKeys.tsx, for an arrow
key (`right = true` for ArrowRight): compute the next index modulo the
two-entry tabs array, refuse landing on model-testing without a saved
key, otherwise delegate to `handleTabChange`. -/
def handleTabsKeyDown (s : WidgetState) (right : Bool) : WidgetState :=
  let currentIndex : Int := if s.activeTab = .apiKey then 0 else 1
  let increment : Int := if right then 1 else -1
  let nextIndex := (currentIndex + increment + 2) % 2
  let nextTab : Tab := if nextIndex = 0 then .apiKey else .modelTesting
  if nextTab = .modelTesting ∧ s.savedApiKey = "" then s
  else handleTabChange s nextTab

/-- `saveApiKey` from ComponentOpenRouterKeys.tsx, with the awaited
persistence outcome passed in (`saveOk = true` when the POST or
`setSetting` call fulfilled; `false` covers a rejection as well as the
no-service throw, which land in the same catch).

- a truthy pending key failing `validateApiKey` aborts with the
  validation error, issuing no call;
- on success: success notice, `savedApiKey` updated, unsaved-changes
  flag cleared — the pending `apiKey` buffer is left as it is — and,
  via the `applyKeyReset` callback, the model-testing state is
  invalidated only if the key actually changed;
- on failure: the generic save-failure error. -/
def saveApiKey (s : WidgetState) (saveOk : Bool) : WidgetState :=
  let apiKey := s.apiKey
  let keyChanged := apiKey ≠ s.savedApiKey
  if apiKey ≠ "" ∧ (validateApiKey apiKey).isValid = false then
    { s with error := some ((validateApiKey apiKey).error.getD "Invalid API key") }
  else
    let s₁ := { s with isSaving := true, error := none, success := none }
    if saveOk then
      let s₂ :=
        { s₁ with success := some (if apiKey ≠ "" then "API key saved successfully"
                                   else "API key removed")
                  savedApiKey := apiKey
                  isSaving := false
                  hasUnsavedChanges := false
                  testResult := none
                  testError := none }
      if keyChanged then
        { s₂ with modelsLoaded := false
                  availableModels := []
                  selectedModelId := none
                  modelTestResults := []
                  modelTabError := none }
      else s₂
    else
      { s₁ with error := some "Failed to save API key"
                isSaving := false
                testResult := none
                testError := none }

/-- The `setTimeout` that auto-dismisses the save success notice. -/
def dismissSuccess (s : WidgetState) : WidgetState :=
  { s with success := none }

/-- The setState of `processApiKeyData` from ComponentOpenRouterKeys.tsx,
applied to the API key string extracted from the loaded value. -/
def processApiKeyData (s : WidgetState) (key : String) : WidgetState :=
  { s with apiKey := key
           savedApiKey := key
           isLoading := false
           error := none
           testResult := none
           testError := none
           hasUnsavedChanges := false }

/-- The not-found / error fallback of `loadSettingsFromAPI`. -/
def loadNotFound (s : WidgetState) : WidgetState :=
  { s with isLoading := false
           apiKey := ""
           savedApiKey := ""
           testResult := none
           testError := none }

/-- `handleModelSearchTermChange` from ComponentOpenRouterKeys.tsx. -/
def handleModelSearchTermChange (s : WidgetState) (value : String) : WidgetState :=
  { s with modelSearchTerm := value }

/-- `handleModelSelect` from ComponentOpenRouterKeys.tsx (an empty id is
falsy and selects nothing). -/
def handleModelSelect (s : WidgetState) (modelId : String) : WidgetState :=
  { s with selectedModelId := if modelId = "" then none else some modelId }

/-- `handleClearTestHistory` from ComponentOpenRouterKeys.tsx. -/
def handleClearTestHistory (s : WidgetState) : WidgetState :=
  { s with modelTestResults := [] }

/-- The fallback `ModelTestResult` built in `handleTestModel`'s catch
block. -/
def fallbackTestResult (m : ModelInfo) (now : Nat) (message : String) : ModelTestResult :=
  { id := m.id ++ "-" ++ toString now
    modelId := m.id
    modelName := m.name
    status := .unknown
    timestamp := now
    message := "Could not confirm model availability."
    details := some message }

/-- `handleTestModel` from ComponentOpenRouterKeys.tsx, with the awaited
`testModelAvailability` promise outcome passed in and `Date.now()` of
the catch block as `now`.

- no selection or a test already in flight: no-op;
- selection not among the loaded models: tab-scoped error;
- fulfilment: prepend the result and cap the history via
  `[result, ...prev].slice(0, 10)`;
- rejection: prepend the fallback `unknown` result under the same cap
  and surface the message. -/
def handleTestModel (s : WidgetState) (outcome : Except String ModelTestResult)
    (now : Nat) : WidgetState :=
  match s.selectedModelId with
  | none => s
  | some mid =>
    if s.isModelTesting then s
    else
      match s.availableModels.find? (fun m => m.id == mid) with
      | none => { s with modelTabError := some "Select a model to test.", isModelTesting := false }
      | some selectedModel =>
        let s₁ := { s with isModelTesting := true, modelTabError := none }
        match outcome with
        | .ok result =>
          { s₁ with modelTestResults := (result :: s₁.modelTestResults).take 10
                    isModelTesting := false }
        | .error message =>
          { s₁ with modelTestResults :=
                      (fallbackTestResult selectedModel now message :: s₁.modelTestResults).take 10
                    isModelTesting := false
                    modelTabError := some message }

/-- The unified new history entry of one `handleTestModel` invocation:
the service result on fulfilment, the fallback result on rejection. -/
def newTestResult (m : ModelInfo) (outcome : Except String ModelTestResult)
    (now : Nat) : ModelTestResult :=
  match outcome with
  | .ok result => result
  | .error message => fallbackTestResult m now message

/-- `componentDidUpdate` from ComponentOpenRouterKeys.tsx, as the state
adjustment it performs when `savedApiKey` changed relative to the
previous committed state (its `clearModelCache()` side effect lives on
the cache slot, outside `WidgetState`): a removed key forces the
credential tab and resets the model-testing state; a changed key while
on the model-testing tab refreshes the models. -/
def componentDidUpdate (prevSavedApiKey : String) (s : WidgetState) : WidgetState :=
  if s.savedApiKey = prevSavedApiKey then s
  else if s.savedApiKey = "" then
    { s with activeTab := .apiKey
             modelsLoaded := false
             availableModels := []
             selectedModelId := none
             modelTestResults := []
             modelTabError := none }
  else if s.activeTab = .modelTesting then ensureModelsLoadedStart s
  else s

/-- The widget's input alphabet: UI events and settled async
completions. -/
inductive WidgetEvent where
  | input (value : String)
  | clearKey
  | tabClick (tab : Tab)
  | arrowKey (right : Bool)
  | save (saveOk : Bool)
  | successTimeout
  | loaded (key : String)
  | loadFailed
  | modelSearch (value : String)
  | modelSelect (modelId : String)
  | clearHistory
  | modelsFetched (outcome : Except String (List ModelInfo))
  | modelTest (outcome : Except String ModelTestResult) (now : Nat)

/-- One event-driven step of the widget: the handler runs, then React
invokes `componentDidUpdate` against the previous committed state. -/
def step (s : WidgetState) : WidgetEvent → WidgetState
  | .input value => componentDidUpdate s.savedApiKey (handleApiKeyChange s value)
  | .clearKey => componentDidUpdate s.savedApiKey (clearApiKey s)
  | .tabClick tab => componentDidUpdate s.savedApiKey (handleTabChange s tab)
  | .arrowKey right => componentDidUpdate s.savedApiKey (handleTabsKeyDown s right)
  | .save saveOk => componentDidUpdate s.savedApiKey (saveApiKey s saveOk)
  | .successTimeout => componentDidUpdate s.savedApiKey (dismissSuccess s)
  | .loaded key => componentDidUpdate s.savedApiKey (processApiKeyData s key)
  | .loadFailed => componentDidUpdate s.savedApiKey (loadNotFound s)
  | .modelSearch value => componentDidUpdate s.savedApiKey (handleModelSearchTermChange s value)
  | .modelSelect modelId => componentDidUpdate s.savedApiKey (handleModelSelect s modelId)
  | .clearHistory => componentDidUpdate s.savedApiKey (handleClearTestHistory s)
  | .modelsFetched outcome => componentDidUpdate s.savedApiKey (ensureModelsLoadedFinish s outcome)
  | .modelTest outcome now => componentDidUpdate s.savedApiKey (handleTestModel s outcome now)

/-- The widget states reachable from the constructor's initial state
under the event alphabet. -/
inductive Reachable : WidgetState → Prop
  | init : Reachable initialState
  | next {s : WidgetState} (hs : Reachable s) (e : WidgetEvent) : Reachable (step s e)

/-- The credential-format predicate exactly as the specification words
it: valid iff empty, or prefixed with `sk-or-`, at least 26 characters
long, and free of space, tab and newline characters.  This is the
spec's wording, kept apart so it can be compared against the
implementation's `validateApiKey`. -/
def specCredentialValid (s : String) : Prop :=
  s = "" ∨
    (jsStartsWith s "sk-or-" = true ∧ 26 ≤ s.length ∧
     ∀ c ∈ s.data, c ≠ ' ' ∧ c ≠ '\t' ∧ c ≠ '\n')

instance (s : String) : Decidable (specCredentialValid s) := by
  unfold specCredentialValid
  infer_instance

/-- The guard invariant of the tab navigation: the model-testing tab is
active only while a credential is saved. -/
def tabGuardInv (s : WidgetState) : Prop :=
  s.activeTab = .modelTesting → s.savedApiKey ≠ ""

/-! ## Theorems -/

/-- C9: clearing the Model Cache is idempotent — for every cache state,
`clearModelCache` removes the entry (the slot is left empty), it is a
total operation also when nothing is cached, and a second consecutive
clear leaves the state unchanged. -/
theorem clearModelCache_idempotent (store : Option CachedModelsPayload) :
    clearModelCache store = none ∧
    clearModelCache (clearModelCache store) = clearModelCache store :=
  ⟨rfl, rfl⟩

/-- C10: supplying `testModelAvailability` with an empty `knownModels`
list is treated exactly like omitting the argument — both resolve the
working set through `fetchModels()` (honoring the cache) and agree on
the result and on the cache slot they leave behind. -/
theorem testModelAvailability_empty_models_falls_back (modelId : String)
    (env : FetchEnv) (cache : Option CachedModelsPayload) :
    testModelAvailability modelId (some []) env cache =
      testModelAvailability modelId none env cache := by
  simp [testModelAvailability]

/-- C3 (counterexample): the claim fails for an entry whose capture
timestamp is `0`.  `getModelCache` rejects such a payload through the
JS falsiness check `!payload?.timestamp`, so a read within the TTL
(`now - T = 0 ≤ ttl`) returns absent instead of the stored models — and
the entry is not evicted either. -/
theorem getModelCache_zero_timestamp_counterexample :
    getModelCache 0 FIVE_MINUTES (some { models := [], timestamp := 0 }) =
      (none, some { models := [], timestamp := 0 }) ∧
    ((0 : Int) - (0 : Int) ≤ (FIVE_MINUTES : Int)) := by
  refine ⟨rfl, ?_⟩
  norm_num [FIVE_MINUTES]

/-- C3 (amended): for every cache entry written at a positive time `T`
with models `M` and every read at time `now` with time-to-live `ttl`,
the read returns the entry (and keeps it stored) when
`now - T ≤ ttl`, and returns absent and removes the entry from storage
when `now - T > ttl`.  The positivity of `T` is forced by the
falsy-timestamp counterexample; `FIVE_MINUTES` is the default `ttl`. -/
theorem getModelCache_ttl (M : List ModelInfo) (T now ttl : Nat) (hT : 1 ≤ T) :
    getModelCache now ttl (some { models := M, timestamp := T }) =
      if (now : Int) - (T : Int) ≤ (ttl : Int) then
        (some { models := M, timestamp := T }, some { models := M, timestamp := T })
      else (none, none) := by
  have hT0 : ¬ (T = 0) := by omega
  by_cases h : (now : Int) - (T : Int) ≤ (ttl : Int)
  · have hlt : ¬ ((now : Int) - (T : Int) > (ttl : Int)) := by omega
    simp [getModelCache, hT0, hlt, h]
  · have hlt : (now : Int) - (T : Int) > (ttl : Int) := by omega
    simp [getModelCache, hT0, hlt, h]

/-- Witness for C3: a fresh entry written at time `1` read back at time
`1` with the default TTL is returned and stays stored. -/
theorem getModelCache_ttl_witness :
    1 ≤ 1 ∧
    getModelCache 1 FIVE_MINUTES (some { models := [], timestamp := 1 }) =
      (some { models := [], timestamp := 1 }, some { models := [], timestamp := 1 }) := by
  refine ⟨le_refl 1, ?_⟩
  rw [getModelCache_ttl [] 1 1 FIVE_MINUTES (le_refl 1)]
  norm_num [FIVE_MINUTES]

/-- C1 (counterexample): the claim fails on a candidate containing a
space.  `"sk-or-aaaaaaaaa aaaaaaaaaaaaaa"` starts with the prefix, has
30 characters, and contains a space, so the claim requires
`valid = false`; `validateApiKey` checks only the prefix and the
minimum length and accepts it. -/
theorem validateApiKey_whitespace_counterexample :
    (validateApiKey "sk-or-aaaaaaaaa aaaaaaaaaaaaaa").isValid = true ∧
    ¬ specCredentialValid "sk-or-aaaaaaaaa aaaaaaaaaaaaaa" := by
  constructor
  · decide
  · decide

/-- C1 (amended): for every candidate string `s`, the credential
validator returns `valid = true` iff `s` is empty, or `s` starts with
the prefix `sk-or-` and has length at least 26 — there is no
forbidden-character rule. -/
theorem validateApiKey_valid_iff (s : String) :
    (validateApiKey s).isValid = true ↔
      (s = "" ∨ (jsStartsWith s "sk-or-" = true ∧ 26 ≤ s.length)) := by
  unfold validateApiKey
  by_cases h0 : s = ""
  · simp [h0]
  · by_cases h1 : jsStartsWith s "sk-or-"
    · by_cases h2 : s.length < 26
      · simp only [h0, h1, h2]
        simp [h0]
        omega
      · simp only [h0, h1, h2]
        simp [h0, h1]
        omega
    · simp [h0, h1]

/-- C4: whenever no model of a supplied non-empty working set matches
the queried id by identifier or by display name, the result is an
`unavailable` test result whose message says the model is not listed,
and the Model Cache slot is cleared unconditionally (the final slot is
empty whatever was cached before). -/
theorem testModelAvailability_miss_clears_cache (modelId : String)
    (ms : List ModelInfo) (env : FetchEnv) (cache : Option CachedModelsPayload)
    (hne : ms ≠ [])
    (hmiss : ∀ m ∈ ms, m.id ≠ modelId ∧ m.name ≠ modelId) :
    testModelAvailability modelId (some ms) env cache =
      (.ok { id := modelId ++ "-" ++ toString env.now,
             modelId := modelId,
             modelName := modelId,
             status := .unavailable,
             timestamp := env.now,
             message := "Model not listed by OpenRouter for the current account." },
       none) := by
  have hempty : ms.isEmpty = false := by
    cases ms with
    | nil => exact absurd rfl hne
    | cons a l => rfl
  have hfind : ms.find? (fun m => m.id == modelId || m.name == modelId) = none := by
    refine List.find?_eq_none.mpr ?_
    intro m hm
    have h := hmiss m hm
    simp [h.1, h.2]
  simp [testModelAvailability, hempty, hfind, clearModelCache]

/-- Witness for C4: testing `ghost-model` against a one-model working
set that matches neither id nor name yields the `unavailable` result
and empties a previously written cache slot. -/
theorem testModelAvailability_miss_clears_cache_witness :
    ([({ id := "a", name := "b" } : ModelInfo)] ≠ ([] : List ModelInfo)) ∧
    (∀ m ∈ [({ id := "a", name := "b" } : ModelInfo)],
      m.id ≠ "ghost-model" ∧ m.name ≠ "ghost-model") ∧
    testModelAvailability "ghost-model" (some [{ id := "a", name := "b" }])
        { hasApi := true, response := .array [], now := 7 }
        (some { models := [{ id := "a", name := "b" }], timestamp := 3 }) =
      (.ok { id := "ghost-model-7",
             modelId := "ghost-model",
             modelName := "ghost-model",
             status := .unavailable,
             timestamp := 7,
             message := "Model not listed by OpenRouter for the current account." },
       none) :=
  ⟨by decide, by decide,
   testModelAvailability_miss_clears_cache "ghost-model" [{ id := "a", name := "b" }]
     { hasApi := true, response := .array [], now := 7 }
     (some { models := [{ id := "a", name := "b" }], timestamp := 3 })
     (by decide) (by decide)⟩

/-- Helper: `find?` over an appended list whose left part refutes the
predicate returns the first satisfying element of the right part. -/
theorem find?_append_first_match {α : Type} (p : α → Bool) (pre post : List α)
    (a : α) (hpre : ∀ x ∈ pre, ¬ p x) (ha : p a = true) :
    (pre ++ a :: post).find? p = some a := by
  induction pre with
  | nil =>
    simp [List.find?, ha]
  | cons b l ih =>
    have hb : p b = false := by
      have h := hpre b (by simp)
      simpa using h
    simpa [List.find?, hb] using ih (fun x hx => hpre x (by simp [hx]))

/-- C5 (counterexample): the claim fails on the working set
`[{id: "a", name: "q"}, {id: "q", name: "b"}]` queried with `"q"`.
The claim requires the later identifier match (`id = "q"`) to win; the
single `find` scan of the source returns the earlier display-name
match, so the result reports model `"a"`. -/
theorem testModelAvailability_match_order_counterexample :
    (testModelAvailability "q"
        (some [{ id := "a", name := "q" }, { id := "q", name := "b" }])
        { hasApi := true, response := .array [], now := 0 } none).1 =
      .ok { id := "a-0",
            modelId := "a",
            modelName := "q",
            status := .available,
            timestamp := 0,
            message := "q is available via OpenRouter." } ∧
    ("a" : String) ≠ "q" :=
  ⟨rfl, by decide⟩

/-- C5 (amended): matching is one forward scan accepting either an
identifier match or a display-name match; the earliest model of the
working set matching either wins.  In particular a display-name match
placed earlier in the list is reported even when a model with a
matching identifier appears later — identifier matches take no
precedence. -/
theorem testModelAvailability_first_match_wins (modelId : String)
    (pre post : List ModelInfo) (m₁ : ModelInfo) (env : FetchEnv)
    (cache : Option CachedModelsPayload)
    (hname : m₁.name = modelId)
    (hpre : ∀ m ∈ pre, m.id ≠ modelId ∧ m.name ≠ modelId) :
    testModelAvailability modelId (some (pre ++ m₁ :: post)) env cache =
      (.ok { id := m₁.id ++ "-" ++ toString env.now,
             modelId := m₁.id,
             modelName := m₁.name,
             status := .available,
             timestamp := env.now,
             message := m₁.name ++ " is available via OpenRouter." },
       cache) := by
  have hne : (pre ++ m₁ :: post).isEmpty = false := by
    cases pre with
    | nil => rfl
    | cons a l => rfl
  have hfind :
      (pre ++ m₁ :: post).find? (fun m => m.id == modelId || m.name == modelId) =
        some m₁ := by
    apply find?_append_first_match
    · intro m hm
      have h := hpre m hm
      simp [h.1, h.2]
    · simp [hname]
  simp [testModelAvailability, hne, hfind]

/-- Witness for C5: with `[{id: "x", name: "y"}]` before the name match
`{id: "a", name: "q"}` and an id match `{id: "q", name: "b"}` after it,
the query `"q"` reports the name-matched model `"a"`. -/
theorem testModelAvailability_first_match_wins_witness :
    (({ id := "a", name := "q" } : ModelInfo).name = "q") ∧
    (∀ m ∈ [({ id := "x", name := "y" } : ModelInfo)], m.id ≠ "q" ∧ m.name ≠ "q") ∧
    testModelAvailability "q"
        (some ([{ id := "x", name := "y" }] ++ { id := "a", name := "q" } ::
               [{ id := "q", name := "b" }]))
        { hasApi := true, response := .array [], now := 3 } none =
      (.ok { id := "a-3",
             modelId := "a",
             modelName := "q",
             status := .available,
             timestamp := 3,
             message := "q is available via OpenRouter." },
       none) :=
  ⟨rfl, by decide,
   testModelAvailability_first_match_wins "q" [{ id := "x", name := "y" }]
     [{ id := "q", name := "b" }] { id := "a", name := "q" }
     { hasApi := true, response := .array [], now := 3 } none rfl (by decide)⟩

/-- C6: whenever the cache read misses and the provider response
normalizes to an empty model list (in particular the `{models: []}`
response), `fetchModels` rejects with the no-models error instead of
returning an empty success, and the Model Cache is not written — the
slot stays exactly as the cache read left it. -/
theorem fetchModels_no_models_error (env : FetchEnv)
    (cache : Option CachedModelsPayload)
    (hapi : env.hasApi = true)
    (hmiss : (getModelCache env.now FIVE_MINUTES cache).1 = none)
    (hempty : normalizeModels (extractRawModels env.response) = []) :
    fetchModels false env cache =
      (.error "No models returned from OpenRouter",
       (getModelCache env.now FIVE_MINUTES cache).2) := by
  rcases hp : getModelCache env.now FIVE_MINUTES cache with ⟨r, c₂⟩
  rw [hp] at hmiss
  simp only at hmiss
  subst hmiss
  simp [fetchModels, hp, hapi, hempty]

/-- Witness for C6: an empty cache and the provider response
`{models: []}` make `fetchModels` reject with the no-models error and
leave the cache unwritten. -/
theorem fetchModels_no_models_error_witness :
    (({ hasApi := true, response := .object (some []) none, now := 0 } : FetchEnv).hasApi
       = true) ∧
    ((getModelCache 0 FIVE_MINUTES none).1 = none) ∧
    (normalizeModels (extractRawModels
        ({ hasApi := true, response := .object (some []) none, now := 0 } : FetchEnv).response)
      = []) ∧
    fetchModels false { hasApi := true, response := .object (some []) none, now := 0 } none =
      (.error "No models returned from OpenRouter", none) :=
  ⟨rfl, rfl, rfl,
   fetchModels_no_models_error { hasApi := true, response := .object (some []) none, now := 0 }
     none rfl rfl rfl⟩

/-- C7: on every test invocation that reaches the history update — on
the fulfilment path and on the rejection-fallback path alike — the new
Model Test Result is placed at index 0 and the history is capped at 10:
the updated history is the new result followed by the first 9 old
entries, so appending to a history of 10 drops exactly the oldest. -/
theorem handleTestModel_history_bounded (s : WidgetState)
    (outcome : Except String ModelTestResult) (now : Nat)
    (mid : String) (m : ModelInfo)
    (hsel : s.selectedModelId = some mid)
    (hflight : s.isModelTesting = false)
    (hfind : s.availableModels.find? (fun x => x.id == mid) = some m) :
    (handleTestModel s outcome now).modelTestResults =
      newTestResult m outcome now :: s.modelTestResults.take 9 ∧
    (handleTestModel s outcome now).modelTestResults.length =
      min (s.modelTestResults.length + 1) 10 := by
  have hstep : (handleTestModel s outcome now).modelTestResults =
      (newTestResult m outcome now :: s.modelTestResults).take 10 := by
    cases outcome with
    | ok r => simp [handleTestModel, hsel, hflight, hfind, newTestResult]
    | error msg => simp [handleTestModel, hsel, hflight, hfind, newTestResult]
  rw [hstep]
  refine ⟨rfl, ?_⟩
  rw [List.length_take]
  simp [Nat.min_comm]

/-- Witness for C7: a state holding 10 identical results and a valid
selection; one more fulfilled test yields the new result first and a
history of exactly 10. -/
theorem handleTestModel_history_bounded_witness :
    (({ initialState with
          selectedModelId := some "a",
          availableModels := [{ id := "a", name := "a" }],
          modelTestResults :=
            List.replicate 10
              { id := "r", modelId := "a", modelName := "a",
                status := .unknown, timestamp := 0, message := "m" } } :
        WidgetState).selectedModelId = some "a") ∧
    (handleTestModel
        { initialState with
            selectedModelId := some "a",
            availableModels := [{ id := "a", name := "a" }],
            modelTestResults :=
              List.replicate 10
                { id := "r", modelId := "a", modelName := "a",
                  status := .unknown, timestamp := 0, message := "m" } }
        (.ok { id := "n", modelId := "a", modelName := "a",
               status := .available, timestamp := 5, message := "ok" })
        5).modelTestResults.length = 10 := by
  refine ⟨rfl, ?_⟩
  have h := handleTestModel_history_bounded
    { initialState with
        selectedModelId := some "a",
        availableModels := [{ id := "a", name := "a" }],
        modelTestResults :=
          List.replicate 10
            { id := "r", modelId := "a", modelName := "a",
              status := .unknown, timestamp := 0, message := "m" } }
    (.ok { id := "n", modelId := "a", modelName := "a",
           status := .available, timestamp := 5, message := "ok" })
    5 "a" { id := "a", name := "a" } rfl rfl rfl
  rw [h.2]
  decide

/-- C2 (counterexample): the claim fails on its "clears the pending raw
input buffer" part.  Saving the valid pending key
`sk-or-abcdefghijklmnopqrst` from a fresh widget succeeds, yet the
post-save state still holds that key in the editable `apiKey` buffer —
the field does not become empty. -/
theorem saveApiKey_retains_pending_buffer_counterexample :
    (step { initialState with
              apiKey := "sk-or-abcdefghijklmnopqrst",
              isLoading := false,
              hasUnsavedChanges := true }
        (.save true)).apiKey = "sk-or-abcdefghijklmnopqrst" ∧
    ("sk-or-abcdefghijklmnopqrst" : String) ≠ "" :=
  ⟨rfl, by decide⟩

/-- C2 (amended): every successful save of a non-empty (and
format-valid) credential records the new saved value, clears the
unsaved-changes flag, and shows the transient success notice — but the
pending raw input buffer is retained, not cleared: the editable key
field still holds the entered key. -/
theorem saveApiKey_success_state (s : WidgetState)
    (hkey : s.apiKey ≠ "")
    (hvalid : (validateApiKey s.apiKey).isValid = true) :
    (step s (.save true)).savedApiKey = s.apiKey ∧
    (step s (.save true)).hasUnsavedChanges = false ∧
    (step s (.save true)).success = some "API key saved successfully" ∧
    (step s (.save true)).apiKey = s.apiKey := by
  have hcond : ¬ (s.apiKey ≠ "" ∧ (validateApiKey s.apiKey).isValid = false) := by
    simp [hvalid]
  have ht : (saveApiKey s true).savedApiKey = s.apiKey ∧
      (saveApiKey s true).hasUnsavedChanges = false ∧
      (saveApiKey s true).success = some "API key saved successfully" ∧
      (saveApiKey s true).apiKey = s.apiKey := by
    unfold saveApiKey
    rw [if_neg hcond]
    simp only [if_pos]
    split <;> simp [hkey]
  have hd : ∀ t : WidgetState, t.savedApiKey ≠ "" →
      (componentDidUpdate s.savedApiKey t).savedApiKey = t.savedApiKey ∧
      (componentDidUpdate s.savedApiKey t).hasUnsavedChanges = t.hasUnsavedChanges ∧
      (componentDidUpdate s.savedApiKey t).success = t.success ∧
      (componentDidUpdate s.savedApiKey t).apiKey = t.apiKey := by
    intro t htne
    unfold componentDidUpdate ensureModelsLoadedStart
    repeat' split
    all_goals exact ⟨rfl, rfl, rfl, rfl⟩
  have hne : (saveApiKey s true).savedApiKey ≠ "" := by
    rw [ht.1]; exact hkey
  have hd' := hd (saveApiKey s true) hne
  have hstep : step s (.save true) = componentDidUpdate s.savedApiKey (saveApiKey s true) := rfl
  rw [hstep, hd'.1, hd'.2.1, hd'.2.2.1, hd'.2.2.2]
  exact ht

/-- Witness for C2: saving the valid pending key
`sk-or-abcdefghijklmnopqrst` from a fresh widget records it as saved,
clears the unsaved-changes flag, shows the success notice, and keeps
the pending buffer. -/
theorem saveApiKey_success_state_witness :
    (step { initialState with
              apiKey := "sk-or-abcdefghijklmnopqrst",
              isLoading := false,
              hasUnsavedChanges := true }
        (.save true)).savedApiKey = "sk-or-abcdefghijklmnopqrst" ∧
    (step { initialState with
              apiKey := "sk-or-abcdefghijklmnopqrst",
              isLoading := false,
              hasUnsavedChanges := true }
        (.save true)).hasUnsavedChanges = false ∧
    (step { initialState with
              apiKey := "sk-or-abcdefghijklmnopqrst",
              isLoading := false,
              hasUnsavedChanges := true }
        (.save true)).success = some "API key saved successfully" ∧
    (step { initialState with
              apiKey := "sk-or-abcdefghijklmnopqrst",
              isLoading := false,
              hasUnsavedChanges := true }
        (.save true)).apiKey = "sk-or-abcdefghijklmnopqrst" :=
  saveApiKey_success_state
    { initialState with
        apiKey := "sk-or-abcdefghijklmnopqrst",
        isLoading := false,
        hasUnsavedChanges := true }
    (by decide) (by decide)

/-- Helper: the synchronous prefix of `ensureModelsLoaded` changes
neither the active tab nor the saved key. -/
theorem ensureModelsLoadedStart_fields (s : WidgetState) :
    (ensureModelsLoadedStart s).activeTab = s.activeTab ∧
    (ensureModelsLoadedStart s).savedApiKey = s.savedApiKey := by
  unfold ensureModelsLoadedStart
  repeat' split
  all_goals exact ⟨rfl, rfl⟩

/-- Helper: `handleTabChange` never changes the saved key. -/
theorem handleTabChange_savedApiKey (s : WidgetState) (tab : Tab) :
    (handleTabChange s tab).savedApiKey = s.savedApiKey := by
  unfold handleTabChange ensureModelsLoadedStart
  dsimp only
  repeat' split
  all_goals rfl

/-- Helper: `handleTabChange` preserves the tab-guard invariant. -/
theorem handleTabChange_inv (s : WidgetState) (tab : Tab) (h : tabGuardInv s) :
    tabGuardInv (handleTabChange s tab) := by
  unfold handleTabChange
  by_cases h1 : tab = s.activeTab
  · rw [if_pos h1]; exact h
  · rw [if_neg h1]
    by_cases h2 : tab = Tab.modelTesting ∧ s.savedApiKey = ""
    · rw [if_pos h2]
      intro hmt
      exact h hmt
    · rw [if_neg h2]
      unfold tabGuardInv
      dsimp only
      split
      next hc =>
        intro _
        rw [(ensureModelsLoadedStart_fields _).2]
        show s.savedApiKey ≠ ""
        intro hemp
        exact h2 ⟨hc.1, hemp⟩
      next hc =>
        intro hmt
        show s.savedApiKey ≠ ""
        intro hemp
        exact h2 ⟨hmt, hemp⟩

/-- Helper: `handleTabsKeyDown` never changes the saved key. -/
theorem handleTabsKeyDown_savedApiKey (s : WidgetState) (right : Bool) :
    (handleTabsKeyDown s right).savedApiKey = s.savedApiKey := by
  unfold handleTabsKeyDown
  dsimp only
  repeat' split
  all_goals first
    | rfl
    | exact handleTabChange_savedApiKey s _

/-- Helper: `handleTabsKeyDown` preserves the tab-guard invariant. -/
theorem handleTabsKeyDown_inv (s : WidgetState) (right : Bool) (h : tabGuardInv s) :
    tabGuardInv (handleTabsKeyDown s right) := by
  unfold handleTabsKeyDown
  dsimp only
  repeat' split
  all_goals first
    | exact h
    | exact handleTabChange_inv s _ h

/-- Helper: `componentDidUpdate` is the identity when the saved key did
not change. -/
theorem componentDidUpdate_noop (prev : String) (t : WidgetState)
    (h : t.savedApiKey = prev) : componentDidUpdate prev t = t := by
  unfold componentDidUpdate
  rw [if_pos h]

/-- Helper: `componentDidUpdate` establishes the tab-guard invariant
behind any handler that leaves the active tab alone. -/
theorem componentDidUpdate_inv_of_tab_eq (s t : WidgetState)
    (htab : t.activeTab = s.activeTab) (h : tabGuardInv s) :
    tabGuardInv (componentDidUpdate s.savedApiKey t) := by
  unfold componentDidUpdate
  by_cases h1 : t.savedApiKey = s.savedApiKey
  · rw [if_pos h1]
    intro hmt
    rw [h1]
    exact h (htab ▸ hmt)
  · rw [if_neg h1]
    by_cases h2 : t.savedApiKey = ""
    · rw [if_pos h2]
      intro hmt
      simp at hmt
    · rw [if_neg h2]
      split
      · intro _
        rw [(ensureModelsLoadedStart_fields t).2]
        exact h2
      · intro _
        exact h2

/-- Helper: every event of the widget alphabet preserves the tab-guard
invariant. -/
theorem step_preserves_inv (s : WidgetState) (e : WidgetEvent)
    (h : tabGuardInv s) : tabGuardInv (step s e) := by
  cases e with
  | input v => exact componentDidUpdate_inv_of_tab_eq s _ rfl h
  | clearKey => exact componentDidUpdate_inv_of_tab_eq s _ rfl h
  | tabClick tab =>
    have hs : step s (.tabClick tab) = handleTabChange s tab :=
      componentDidUpdate_noop _ _ (handleTabChange_savedApiKey s tab)
    rw [hs]
    exact handleTabChange_inv s tab h
  | arrowKey right =>
    have hs : step s (.arrowKey right) = handleTabsKeyDown s right :=
      componentDidUpdate_noop _ _ (handleTabsKeyDown_savedApiKey s right)
    rw [hs]
    exact handleTabsKeyDown_inv s right h
  | save saveOk =>
    refine componentDidUpdate_inv_of_tab_eq s _ ?_ h
    unfold saveApiKey
    dsimp only
    repeat' split
    all_goals rfl
  | successTimeout => exact componentDidUpdate_inv_of_tab_eq s _ rfl h
  | loaded key => exact componentDidUpdate_inv_of_tab_eq s _ rfl h
  | loadFailed => exact componentDidUpdate_inv_of_tab_eq s _ rfl h
  | modelSearch v => exact componentDidUpdate_inv_of_tab_eq s _ rfl h
  | modelSelect mid => exact componentDidUpdate_inv_of_tab_eq s _ rfl h
  | clearHistory => exact componentDidUpdate_inv_of_tab_eq s _ rfl h
  | modelsFetched outcome =>
    refine componentDidUpdate_inv_of_tab_eq s _ ?_ h
    unfold ensureModelsLoadedFinish
    cases outcome <;> rfl
  | modelTest outcome now =>
    refine componentDidUpdate_inv_of_tab_eq s _ ?_ h
    unfold handleTestModel
    dsimp only
    repeat' split
    all_goals rfl

/-- Helper: the tab-guard invariant holds in every reachable widget
state. -/
theorem reachable_inv (s : WidgetState) (h : Reachable s) : tabGuardInv s := by
  induction h with
  | init => exact fun hmt => absurd hmt (by decide)
  | next hs e ih => exact step_preserves_inv _ e ih

/-- C8: while no credential is saved, a click requesting the
model-testing tab leaves the active tab unchanged, and arrow-key
navigation from the credential tab stays on the credential tab; and in
every reachable widget state the model-testing tab is active only
while a credential is saved. -/
theorem tab_guard (s : WidgetState) (right : Bool) :
    (s.savedApiKey = "" →
      (step s (.tabClick .modelTesting)).activeTab = s.activeTab) ∧
    (s.savedApiKey = "" → s.activeTab = .apiKey →
      (step s (.arrowKey right)).activeTab = .apiKey) ∧
    (Reachable s → tabGuardInv s) := by
  refine ⟨?_, ?_, fun hr => reachable_inv s hr⟩
  · intro hsaved
    have hs : step s (.tabClick .modelTesting) = handleTabChange s .modelTesting :=
      componentDidUpdate_noop _ _ (handleTabChange_savedApiKey s _)
    rw [hs]
    unfold handleTabChange
    by_cases h1 : Tab.modelTesting = s.activeTab
    · rw [if_pos h1]
    · rw [if_neg h1, if_pos ⟨rfl, hsaved⟩]
  · intro hsaved htab
    have hs : step s (.arrowKey right) = handleTabsKeyDown s right :=
      componentDidUpdate_noop _ _ (handleTabsKeyDown_savedApiKey s right)
    rw [hs]
    unfold handleTabsKeyDown
    cases right <;> simp [htab, hsaved]

/-- Witness for C8: from the fresh widget, a click on the model-testing
tab is refused and ArrowRight keeps the credential tab; and in the
reachable state obtained by loading a key and then entering the
model-testing tab, a credential is indeed saved. -/
theorem tab_guard_witness :
    (step initialState (.tabClick .modelTesting)).activeTab = initialState.activeTab ∧
    (step initialState (.arrowKey true)).activeTab = .apiKey ∧
    (step (step initialState (.loaded "sk-or-k")) (.tabClick .modelTesting)).savedApiKey ≠ "" :=
  ⟨(tab_guard initialState true).1 rfl,
   (tab_guard initialState true).2.1 rfl rfl,
   (tab_guard (step (step initialState (.loaded "sk-or-k")) (.tabClick .modelTesting)) true).2.2
     (Reachable.next (Reachable.next Reachable.init (.loaded "sk-or-k")) (.tabClick .modelTesting))
     (by decide)⟩

end OpenRouterPlugin
